import Mathlib

/-!
Verification of the suggestion pipeline of the AI Website Name Generator
(src/pages/Home.tsx): the response transformation, the state updates of
generateDomains, and the registrar URL derivation getGoDaddyUrl.

Strings are modelled as Lean strings (lists of characters).  The JavaScript
primitives used by the page are embedded character by character:
String.prototype.trim is modelled by trimming the ASCII whitespace
characters, String.prototype.split with separator newline by splitLines,
String.prototype.toLowerCase by mapping Char.toLower over the characters
(ASCII lower-casing, which covers all inputs appearing in the contract).
The backend call is modelled by its outcome: either a response text, or a
thrown value carrying an optional error message (some m when the thrown
value is an Error with message m, none when a non-Error value is thrown).
-/

namespace WebsiteNameGen

/-- Whitespace test matching the JavaScript trim semantics on the ASCII
range: space, tab, newline, carriage return, vertical tab and form feed. -/
def isJsWs (c : Char) : Bool :=
  c == ' ' || c == '\t' || c == '\n' || c == '\r' ||
  c == Char.ofNat 11 || c == Char.ofNat 12

/-- Drop leading and trailing whitespace characters from a character list. -/
def trimList (l : List Char) : List Char :=
  ((l.dropWhile isJsWs).reverse.dropWhile isJsWs).reverse

/-- Model of the JavaScript expression s.trim(). -/
def jsTrim (s : String) : String :=
  String.mk (trimList s.data)

/-- Model of the JavaScript expression s.split(a newline character): cut the
character list at every newline, keeping empty segments, so that a text with
no newline yields the one-element list holding it. -/
def splitLines : List Char → List (List Char)
  | [] => [[]]
  | c :: rest =>
    match splitLines rest with
    | [] => [[]]
    | line :: lines =>
      if c = '\n' then [] :: line :: lines else (c :: line) :: lines

/-- The fixed extension list attached to every suggestion
(Home.tsx line 37). -/
def extensions : List String :=
  [".com", ".io", ".co", ".net", ".org", ".ai"]

/-- The DomainSuggestion record type of Home.tsx lines 8 to 11. -/
structure DomainSuggestion where
  name : String
  extensions : List String
deriving DecidableEq, Repr

/-- The three pieces of UI state read or written by generateDomains:
description, domains and error (Home.tsx lines 14 to 17; the transient
loading flag is set and then cleared inside every non-guarded run and is
not part of any claim). -/
structure HomeState where
  description : String
  domains : List DomainSuggestion
  error : Option String
deriving DecidableEq, Repr

/-- Outcome of the awaited backend call model.generateContent: ok carries
the raw response text, thrown carries the message of the thrown value
(some m when the value is an Error with message m, none when the thrown
value is not an Error). -/
inductive BackendOutcome where
  | ok (text : String)
  | thrown (message : Option String)
deriving DecidableEq, Repr

/-- The message of the configuration error thrown when genAI is absent
(Home.tsx line 26). -/
def apiKeyErrorMessage : String :=
  "API key not configured. Please add your Gemini API key to continue."

/-- The fallback message used when the caught value is not an Error
(Home.tsx line 42). -/
def genericErrorMessage : String :=
  "An error occurred while generating domain names"

/-- The response transformation of Home.tsx lines 33 to 38: split the raw
response text on newlines, keep the lines whose trim is non-empty (the
truthiness test of filter), and map each surviving line, lower-cased in
full, to a DomainSuggestion carrying the fixed extension list. -/
def transformResponse (text : String) : List DomainSuggestion :=
  ((splitLines text.data).filter (fun l => !(trimList l).isEmpty)).map
    (fun l => { name := String.mk (l.map Char.toLower), extensions := extensions })

/-- The generateDomains handler of Home.tsx lines 19 to 47 as a state
transformer.  Arguments: the current state, whether genAI is configured,
and the outcome of the backend call.  Result: the new state and whether
the network call was issued.  The guard on the trimmed description returns
without touching anything; a missing genAI throws before the call, and the
catch block stores the Error message (the generic message for a non-Error
value) and clears the domains; a successful call stores the transformed
response and leaves the error cleared (setError null runs before the try
block). -/
def generateDomains (st : HomeState) (genAI : Bool) (backend : BackendOutcome) :
    HomeState × Bool :=
  if jsTrim st.description = "" then (st, false)
  else if genAI = false then
    ({ st with domains := [], error := some apiKeyErrorMessage }, false)
  else
    match backend with
    | .ok text =>
      ({ st with domains := transformResponse text, error := none }, true)
    | .thrown message =>
      ({ st with domains := [], error := some (message.getD genericErrorMessage) }, true)

/-- The constant part of the registrar search URL template of Home.tsx
line 50, up to and including the equals sign of its single query
parameter. -/
def goDaddyBase : String :=
  "https://www.godaddy.com/domainsearch/find?domainToCheck="

/-- The getGoDaddyUrl function of Home.tsx lines 49 to 51: the template
literal interpolates domain and extension directly after the constant
part, with no escaping of any kind. -/
def getGoDaddyUrl (domain : String) (extension : String) : String :=
  goDaddyBase ++ domain ++ extension

/-- Character class kept verbatim by the percent-escaping that the
specification describes for the query value (the unreserved characters of
encodeURIComponent: letters, digits, and - _ . ! ~ * ( ) and the
apostrophe). -/
def isUriUnreserved (c : Char) : Bool :=
  (Char.ofNat 65 ≤ c && c ≤ Char.ofNat 90) ||
  (Char.ofNat 97 ≤ c && c ≤ Char.ofNat 122) ||
  (Char.ofNat 48 ≤ c && c ≤ Char.ofNat 57) ||
  c == '-' || c == '_' || c == '.' || c == '!' || c == '~' ||
  c == '*' || c == '(' || c == ')' || c == Char.ofNat 39

/-- The UTF-8 byte sequence of a code point, as natural numbers. -/
def utf8Bytes (n : Nat) : List Nat :=
  if n < 128 then [n]
  else if n < 2048 then [192 + n / 64, 128 + n % 64]
  else if n < 65536 then [224 + n / 4096, 128 + (n / 64) % 64, 128 + n % 64]
  else [240 + n / 262144, 128 + (n / 4096) % 64, 128 + (n / 64) % 64, 128 + n % 64]

/-- Upper-case hexadecimal digit for a value below sixteen. -/
def hexDigitChar (n : Nat) : Char :=
  if n < 10 then Char.ofNat (48 + n) else Char.ofNat (55 + n)

/-- Percent-escape one character: unreserved characters pass through,
every other character becomes the percent-encoded form of each of its
UTF-8 bytes. -/
def escapeChar (c : Char) : List Char :=
  if isUriUnreserved c then [c]
  else (utf8Bytes c.toNat).map (fun b => ['%', hexDigitChar (b / 16), hexDigitChar (b % 16)]) |>.flatten

/-- Modelled on the specification wording for the URL derivation: the
percent-unsafe-character escaping (encodeURIComponent) that the spec says
is applied to the query value.  The source getGoDaddyUrl performs no such
escaping; this definition exists only to compare the spec reading with the
code. -/
def escapeUriComponent (s : String) : String :=
  String.mk ((s.data.map escapeChar).flatten)

/-- The URL derivation as the specification words describe it: the fixed
template with the concatenation of name and extension percent-escaped and
embedded as the single query parameter. -/
def goDaddyUrlSpec (domain : String) (extension : String) : String :=
  goDaddyBase ++ escapeUriComponent (domain ++ extension)

/-! ## Helper lemmas -/

theorem data_append (s t : String) : (s ++ t).data = s.data ++ t.data := by
  cases s; cases t; rfl

theorem string_data_inj {s t : String} (h : s.data = t.data) : s = t := by
  cases s; cases t; exact congrArg String.mk h

theorem splitLines_no_newline (l : List Char) (h : '\n' ∉ l) : splitLines l = [l] := by
  induction l with
  | nil => rfl
  | cons c rest ih =>
    rw [List.mem_cons, not_or] at h
    rw [splitLines, ih h.2]
    simp [Ne.symm h.1]

theorem take3_of_append (a c : List Char) (h : 3 ≤ c.length) :
    (a ++ c).reverse.take 3 = c.reverse.take 3 := by
  rw [List.reverse_append]
  exact List.take_append_of_le_length (by simpa using h)

theorem append_suffix3_ne (a b c d : List Char) (hc : 3 ≤ c.length)
    (hd : 3 ≤ d.length) (hne : c.reverse.take 3 ≠ d.reverse.take 3) :
    a ++ c ≠ b ++ d := fun h =>
  hne (by rw [← take3_of_append a c hc, ← take3_of_append b d hd, h])

theorem getGoDaddyUrl_inj (d1 d2 e1 e2 : String)
    (h1 : e1 ∈ extensions) (h2 : e2 ∈ extensions)
    (h : getGoDaddyUrl d1 e1 = getGoDaddyUrl d2 e2) : d1 = d2 ∧ e1 = e2 := by
  have hdata := congrArg String.data h
  unfold getGoDaddyUrl at hdata
  rw [data_append, data_append, data_append, data_append,
    List.append_assoc, List.append_assoc] at hdata
  have hde := List.append_cancel_left hdata
  simp only [extensions, List.mem_cons, List.not_mem_nil, or_false] at h1 h2
  rcases h1 with rfl | rfl | rfl | rfl | rfl | rfl <;>
    rcases h2 with rfl | rfl | rfl | rfl | rfl | rfl <;>
    first
    | exact ⟨string_data_inj (List.append_cancel_right hde), rfl⟩
    | exact absurd hde (append_suffix3_ne _ _ _ _ (by decide) (by decide) (by decide))

/-! ## Claims -/

/-- C1: the response transformation is a pure function of the raw response
text: the text is split into lines on newline boundaries, lines blank after
trimming are discarded, and each surviving line is lower-cased in its
entirety to form the name, in the order of the surviving lines; on the
bakery scenario response the names are croissantco, pariscrumb, lebonpain
with the blank line dropped and the error null. -/
theorem C1_transform_pure (text : String) :
    (transformResponse text).map (fun s => s.name)
      = ((splitLines text.data).filter (fun l => !(trimList l).isEmpty)).map
          (fun l => String.mk (l.map Char.toLower)) ∧
    (generateDomains ⟨"a bakery in Paris", [], none⟩ true
        (.ok "CroissantCo\nParisCrumb\n\nLeBonPain")).1.domains.map (fun s => s.name)
      = ["croissantco", "pariscrumb", "lebonpain"] ∧
    (generateDomains ⟨"a bakery in Paris", [], none⟩ true
        (.ok "CroissantCo\nParisCrumb\n\nLeBonPain")).1.error = none := by
  refine ⟨?_, by decide, by decide⟩
  simp [transformResponse]

/-- C2: for every non-empty trimmed description and every backend response,
the suggestion list has exactly one entry per non-blank line of the
response, and every entry carries the same fixed six-element extension
list, independent of the response content. -/
theorem C2_count_and_extensions (st : HomeState) (text : String)
    (h : jsTrim st.description ≠ "") :
    (generateDomains st true (.ok text)).1.domains.length
      = ((splitLines text.data).filter (fun l => !(trimList l).isEmpty)).length ∧
    ∀ s ∈ (generateDomains st true (.ok text)).1.domains,
      s.extensions = [".com", ".io", ".co", ".net", ".org", ".ai"] := by
  constructor
  · simp [generateDomains, h, transformResponse]
  · intro s hs
    simp [generateDomains, h, transformResponse] at hs
    obtain ⟨l, _, rfl⟩ := hs
    rfl

theorem C2_witness :
    (generateDomains ⟨"a bakery", [], none⟩ true (.ok "Alpha\nBeta")).1.domains.length
      = ((splitLines ("Alpha\nBeta" : String).data).filter
          (fun l => !(trimList l).isEmpty)).length ∧
    ∀ s ∈ (generateDomains ⟨"a bakery", [], none⟩ true (.ok "Alpha\nBeta")).1.domains,
      s.extensions = [".com", ".io", ".co", ".net", ".org", ".ai"] :=
  C2_count_and_extensions ⟨"a bakery", [], none⟩ "Alpha\nBeta" (by decide)

/-- C5: triggering generation with an empty or whitespace-only description
is a no-op: no network call is performed and the whole state, in
particular the suggestion list and the error, is left unchanged. -/
theorem C5_blank_description_noop (st : HomeState) (genAI : Bool)
    (backend : BackendOutcome) (h : jsTrim st.description = "") :
    generateDomains st genAI backend = (st, false) := by
  simp [generateDomains, h]

theorem C5_witness :
    generateDomains ⟨" \t ", [⟨"old", extensions⟩], some "boom"⟩ true (.ok "Alpha")
      = (⟨" \t ", [⟨"old", extensions⟩], some "boom"⟩, false) :=
  C5_blank_description_noop ⟨" \t ", [⟨"old", extensions⟩], some "boom"⟩ true
    (.ok "Alpha") (by decide)

/-- C6: when the backend is not configured, the pipeline fails before any
network call: the call is never issued, the error is the configuration
message and the suggestion list is empty. -/
theorem C6_missing_config (st : HomeState) (backend : BackendOutcome)
    (h : jsTrim st.description ≠ "") :
    (generateDomains st false backend).1.error = some apiKeyErrorMessage ∧
    (generateDomains st false backend).1.domains = [] ∧
    (generateDomains st false backend).2 = false := by
  simp [generateDomains, h]

theorem C6_witness :
    (generateDomains ⟨"my shop", [⟨"old", extensions⟩], none⟩ false
        (.ok "Alpha")).1.error = some apiKeyErrorMessage ∧
    (generateDomains ⟨"my shop", [⟨"old", extensions⟩], none⟩ false
        (.ok "Alpha")).1.domains = [] ∧
    (generateDomains ⟨"my shop", [⟨"old", extensions⟩], none⟩ false
        (.ok "Alpha")).2 = false :=
  C6_missing_config ⟨"my shop", [⟨"old", extensions⟩], none⟩ (.ok "Alpha") (by decide)

/-- C7: a backend response yielding zero usable lines is treated as
success, not as an error: the suggestion list is empty and no error is
set. -/
theorem C7_empty_result_is_success (st : HomeState) (text : String)
    (h : jsTrim st.description ≠ "")
    (hblank : (splitLines text.data).filter (fun l => !(trimList l).isEmpty) = []) :
    (generateDomains st true (.ok text)).1.domains = [] ∧
    (generateDomains st true (.ok text)).1.error = none := by
  simp [generateDomains, h, transformResponse, hblank]

theorem C7_witness :
    (generateDomains ⟨"my shop", [], some "boom"⟩ true (.ok " \n \n")).1.domains = [] ∧
    (generateDomains ⟨"my shop", [], some "boom"⟩ true (.ok " \n \n")).1.error = none :=
  C7_empty_result_is_success ⟨"my shop", [], some "boom"⟩ " \n \n" (by decide) (by decide)

/-- C3 counterexample: the claim says the concatenation of name and
extension is percent-unsafe-character-escaped before being embedded, but
getGoDaddyUrl performs no escaping: on the name foo bar the produced URL
differs from the escaped form and still contains a raw space character
(code point 32), which is not a valid URL query value. -/
theorem C3_counterexample :
    getGoDaddyUrl "foo bar" ".com" ≠ goDaddyUrlSpec "foo bar" ".com" ∧
    Char.ofNat 32 ∈ (getGoDaddyUrl "foo bar" ".com").data ∧
    goDaddyUrlSpec "foo bar" ".com"
      = "https://www.godaddy.com/domainsearch/find?domainToCheck=foo%20bar.com" ∧
    getGoDaddyUrl "foo bar" ".com"
      = "https://www.godaddy.com/domainsearch/find?domainToCheck=foo bar.com" := by
  exact ⟨by decide, by decide, by decide, by decide⟩

/-- C3 amended: the registrar-search URL is the fixed template with the
concatenation of name and extension embedded verbatim, with no escaping of
any kind, as the value of the single query parameter (the constant part of
the template contains exactly one question mark, one equals sign and no
ampersand). -/
theorem C3_amended_url_verbatim (domain : String) (ext : String) :
    getGoDaddyUrl domain ext = goDaddyBase ++ (domain ++ ext) ∧
    (getGoDaddyUrl domain ext).data = goDaddyBase.data ++ (domain.data ++ ext.data) ∧
    goDaddyBase.data.count (Char.ofNat 63) = 1 ∧
    goDaddyBase.data.count (Char.ofNat 61) = 1 ∧
    goDaddyBase.data.count (Char.ofNat 38) = 0 := by
  refine ⟨?_, ?_, by decide, by decide, by decide⟩
  · apply string_data_inj
    rw [getGoDaddyUrl, data_append, data_append, data_append, data_append,
      List.append_assoc]
  · rw [getGoDaddyUrl, data_append, data_append, List.append_assoc]

/-- C4 counterexample: the claim says the stored error message is always
non-empty, falling back to a generic message when the failure carries no
message; but when the backend throws an Error whose message is the empty
string, the caught branch stores that empty string, not the generic
fallback. -/
theorem C4_counterexample :
    (generateDomains ⟨"x", [], none⟩ true (.thrown (some ""))).1.error = some "" ∧
    (generateDomains ⟨"x", [], none⟩ true (.thrown (some ""))).1.error
      ≠ some genericErrorMessage := by
  exact ⟨by decide, by decide⟩

/-- C4 amended: on any failure the suggestion list is reset to empty
regardless of the prior list, and the error is always set (never null): to
the thrown Error message when the failure carries one (which may itself be
empty), to the generic message when the thrown value is not an Error, and
to the configuration message when the backend is not configured. -/
theorem C4_amended_failure_state (st : HomeState) (message : Option String)
    (backend : BackendOutcome) (h : jsTrim st.description ≠ "") :
    (generateDomains st true (.thrown message)).1.domains = [] ∧
    (generateDomains st true (.thrown message)).1.error
      = some (message.getD genericErrorMessage) ∧
    (generateDomains st true (.thrown message)).1.error ≠ none ∧
    (message = none →
      (generateDomains st true (.thrown message)).1.error = some genericErrorMessage) ∧
    (generateDomains st false backend).1.domains = [] ∧
    (generateDomains st false backend).1.error = some apiKeyErrorMessage := by
  refine ⟨?_, ?_, ?_, ?_, ?_, ?_⟩ <;> simp [generateDomains, h]
  · intro hm
    simp [hm]

theorem C4_witness :
    (generateDomains ⟨"my shop", [⟨"old", extensions⟩], none⟩ true
        (.thrown (some "network down"))).1.domains = [] ∧
    (generateDomains ⟨"my shop", [⟨"old", extensions⟩], none⟩ true
        (.thrown (some "network down"))).1.error
      = some ((some "network down").getD genericErrorMessage) ∧
    (generateDomains ⟨"my shop", [⟨"old", extensions⟩], none⟩ true
        (.thrown (some "network down"))).1.error ≠ none ∧
    ((some "network down" : Option String) = none →
      (generateDomains ⟨"my shop", [⟨"old", extensions⟩], none⟩ true
          (.thrown (some "network down"))).1.error = some genericErrorMessage) ∧
    (generateDomains ⟨"my shop", [⟨"old", extensions⟩], none⟩ false
        (.ok "Alpha")).1.domains = [] ∧
    (generateDomains ⟨"my shop", [⟨"old", extensions⟩], none⟩ false
        (.ok "Alpha")).1.error = some apiKeyErrorMessage :=
  C4_amended_failure_state ⟨"my shop", [⟨"old", extensions⟩], none⟩
    (some "network down") (.ok "Alpha") (by decide)

/-- C8: URL derivation is deterministic, and injective per pair of a name
and one of the fixed extensions: identical inputs give an identical
string, and distinct pairs produce distinct URL strings. -/
theorem C8_url_deterministic_injective (d1 d2 e1 e2 : String)
    (h1 : e1 ∈ extensions) (h2 : e2 ∈ extensions) :
    getGoDaddyUrl d1 e1 = getGoDaddyUrl d1 e1 ∧
    ((d1, e1) ≠ (d2, e2) → getGoDaddyUrl d1 e1 ≠ getGoDaddyUrl d2 e2) := by
  refine ⟨rfl, fun hne heq => hne ?_⟩
  obtain ⟨hd, he⟩ := getGoDaddyUrl_inj d1 d2 e1 e2 h1 h2 heq
  rw [hd, he]

theorem C8_witness :
    getGoDaddyUrl "foo" ".com" = getGoDaddyUrl "foo" ".com" ∧
    ((("foo" : String), (".com" : String)) ≠ (("bar" : String), (".io" : String)) →
      getGoDaddyUrl "foo" ".com" ≠ getGoDaddyUrl "bar" ".io") :=
  C8_url_deterministic_injective "foo" "bar" ".com" ".io" (by decide) (by decide)

/-- C9: the lower-casing step is idempotent: a surviving line that is
already lower-case yields a name identical to the line. -/
theorem C9_lowercase_idempotent (l : List Char) (hn : '\n' ∉ l)
    (ht : trimList l ≠ []) (hl : l.map Char.toLower = l) :
    (transformResponse (String.mk l)).map (fun s => s.name) = [String.mk l] := by
  have hfe : (trimList l).isEmpty = false := by
    cases hc : trimList l with
    | nil => exact absurd hc ht
    | cons a as => rfl
  simp [transformResponse, splitLines_no_newline l hn, hfe, hl]

theorem C9_witness :
    (transformResponse (String.mk ("bakery2.go".data))).map (fun s => s.name)
      = [String.mk ("bakery2.go".data)] :=
  C9_lowercase_idempotent ("bakery2.go".data) (by decide) (by decide) (by decide)

/-- C10: surviving lines are never trimmed before being stored: a kept
line keeps its leading and trailing whitespace, lower-cased character by
character (whitespace characters are fixed points of lower-casing and the
length is preserved); in particular a carriage return left by splitting a
CRLF response on newlines survives into the name. -/
theorem C10_no_trim_of_kept_lines (l : List Char) (hn : '\n' ∉ l)
    (ht : trimList l ≠ []) :
    (transformResponse (String.mk l)).map (fun s => s.name)
      = [String.mk (l.map Char.toLower)] ∧
    (l.map Char.toLower).length = l.length ∧
    (∀ c, isJsWs c = true → Char.toLower c = c) ∧
    (transformResponse " Foo \r\nBar").map (fun s => s.name) = [" foo \r", "bar"] := by
  have hfe : (trimList l).isEmpty = false := by
    cases hc : trimList l with
    | nil => exact absurd hc ht
    | cons a as => rfl
  refine ⟨?_, by simp, ?_, by decide⟩
  · simp [transformResponse, splitLines_no_newline l hn, hfe]
  · intro c hc
    simp only [isJsWs, Bool.or_eq_true, beq_iff_eq] at hc
    rcases hc with ((((rfl | rfl) | rfl) | rfl) | rfl) | rfl <;> decide

theorem C10_witness :
    (transformResponse (String.mk (" Foo ".data))).map (fun s => s.name)
      = [String.mk (" Foo ".data.map Char.toLower)] ∧
    (" Foo ".data.map Char.toLower).length = " Foo ".data.length ∧
    (∀ c, isJsWs c = true → Char.toLower c = c) ∧
    (transformResponse " Foo \r\nBar").map (fun s => s.name) = [" foo \r", "bar"] :=
  C10_no_trim_of_kept_lines (" Foo ".data) (by decide) (by decide)

end WebsiteNameGen
